import Mathlib

/-!
Shallow embedding of `src/paws_streamlined.py` (PAWS Streamlined).

Python dictionaries produced by the program are modelled as typed records
whose optional fields stand for keys that the code may or may not set.
The `error` entry is always a string in this program (`'AWS not connected'`
or `str(e)`), so its Python truthiness is "present and non-empty".
-/

namespace PawsStreamlined

/-- A score-breakdown entry, as built in `basic_iam_check`
(`{'control': ..., 'deduction': ..., 'details': ...}`). -/
structure ScoreEntry where
  control : String
  deduction : Int
  details : String
  deriving Repr, DecidableEq

/-- A finding dictionary.  Each optional field models a key that the
various check functions may set; `none` models an absent key. -/
structure Finding where
  category : Option String := none
  severity : Option String := none
  title : Option String := none
  count : Option Int := none
  users : Option (List String) := none
  status : Option String := none
  bucket : Option String := none
  issue : Option String := none
  security_group : Option String := none
  port : Option Int := none
  protocol : Option String := none
  deriving Repr, DecidableEq

/-- A service-check result dictionary, as returned by `basic_iam_check`,
`basic_s3_check` and `basic_ec2_check`.  `{}` (all defaults) models the
empty dictionary. -/
structure ServiceData where
  error : Option String := none
  findings : List Finding := []
  security_score : Option Int := none
  score_breakdown : List ScoreEntry := []
  baseline_score : Option Int := none
  account_id : Option String := none
  buckets_checked : Option Int := none
  security_groups_checked : Option Int := none
  timestamp : Option String := none
  deriving Repr, DecidableEq

/-- Python truthiness of `service_data.get('error')`: the key is present
and holds a non-empty string. -/
def ServiceData.error_truthy (sd : ServiceData) : Bool :=
  match sd.error with
  | some s => !(s == "")
  | none => false

/-- `_finding_by_title`: first finding whose `'title'` entry equals
`title` (exact string equality; a finding with no title never matches). -/
def _finding_by_title (service_data : ServiceData) (title : String) : Option Finding :=
  service_data.findings.find? (fun finding => finding.title == some title)

/-- `eval_mfa` (source lines 50-56). -/
def eval_mfa (service_data : ServiceData) : Bool × String :=
  if service_data.error_truthy then
    (false, "Unable to evaluate: " ++ service_data.error.getD "")
  else
    match _finding_by_title service_data "Users without MFA" with
    | some finding =>
        if (finding.count.getD 0) > 0 then
          (false, toString (finding.count.getD 0) ++ " user(s) without MFA.")
        else
          (true, "All IAM users have MFA enforced.")
    | none => (true, "All IAM users have MFA enforced.")

/-- `eval_old_keys` (source lines 59-65). -/
def eval_old_keys (service_data : ServiceData) : Bool × String :=
  if service_data.error_truthy then
    (false, "Unable to evaluate: " ++ service_data.error.getD "")
  else
    match _finding_by_title service_data "Old access keys (>90 days)" with
    | some finding =>
        if (finding.count.getD 0) > 0 then
          (false, toString (finding.count.getD 0) ++ " access key(s) older than 90 days.")
        else
          (true, "No IAM access keys older than 90 days.")
    | none => (true, "No IAM access keys older than 90 days.")

/-- `eval_password_policy` (source lines 68-74). -/
def eval_password_policy (service_data : ServiceData) : Bool × String :=
  if service_data.error_truthy then
    (false, "Unable to evaluate: " ++ service_data.error.getD "")
  else
    match _finding_by_title service_data "Password policy" with
    | some finding =>
        if finding.status == some "not configured" then
          (false, "Account password policy is not configured.")
        else
          (true, "Password policy is configured.")
    | none => (true, "Password policy is configured.")

/-- The three evaluator functions a control can reference. -/
inductive Evaluator where
  | mfa
  | old_keys
  | password_policy
  deriving Repr, DecidableEq, BEq

/-- Dispatch an evaluator name to its function. -/
def Evaluator.run : Evaluator → ServiceData → Bool × String
  | .mfa => eval_mfa
  | .old_keys => eval_old_keys
  | .password_policy => eval_password_policy

/-- A control entry of `STANDARD_DEFINITIONS`. -/
structure Control where
  id : String
  title : String
  service : String
  evaluator : Evaluator
  description : String
  deriving Repr, DecidableEq

/-- A standard definition (name, version, controls). -/
structure StandardDef where
  name : String
  version : String
  controls : List Control
  deriving Repr, DecidableEq

/-- `STANDARD_DEFINITIONS` (source lines 77-159), as an insertion-ordered
association list. -/
def STANDARD_DEFINITIONS : List (String × StandardDef) := [
  ("cis", {
    name := "CIS AWS Foundations Benchmark",
    version := "1.5",
    controls := [
      { id := "1.1",
        title := "Ensure MFA is enabled for console access",
        service := "iam",
        evaluator := .mfa,
        description := "IAM users with console access should have MFA enabled." },
      { id := "1.4",
        title := "Ensure access keys are rotated every 90 days or less",
        service := "iam",
        evaluator := .old_keys,
        description := "Inactive or old IAM access keys should be rotated." },
      { id := "1.5",
        title := "Ensure IAM password policy requires strong passwords",
        service := "iam",
        evaluator := .password_policy,
        description := "Account password policy must be configured for strong passwords." }
    ] }),
  ("nist", {
    name := "NIST Cybersecurity Framework",
    version := "1.1",
    controls := [
      { id := "PR.AC-1",
        title := "Identities and credentials are managed",
        service := "iam",
        evaluator := .mfa,
        description := "Access control requires multi-factor authentication." },
      { id := "PR.AC-5",
        title := "Network integrity is protected",
        service := "iam",
        evaluator := .old_keys,
        description := "Credential rotation helps maintain access integrity." },
      { id := "PR.IP-2",
        title := "Configuration change control processes are in place",
        service := "iam",
        evaluator := .password_policy,
        description := "Password policies align with organizational standards." }
    ] }),
  ("pcidss", {
    name := "PCI DSS",
    version := "3.2.1",
    controls := [
      { id := "8.3",
        title := "Secure all individual non-console administrative access with MFA",
        service := "iam",
        evaluator := .mfa,
        description := "Administrative access must enforce MFA." },
      { id := "8.2",
        title := "Employ at least one of the following methods to authenticate all users",
        service := "iam",
        evaluator := .password_policy,
        description := "Strong password policy must be enforced." },
      { id := "8.1.4",
        title := "Remove/disable inactive user accounts within 90 days",
        service := "iam",
        evaluator := .old_keys,
        description := "Access keys older than 90 days should be rotated/removed." }
    ] })
]

/-- `STANDARD_DEFINITIONS.get(key)`. -/
def lookupStandard (key : String) : Option StandardDef :=
  (STANDARD_DEFINITIONS.find? (fun p => p.1 == key)).map (fun p => p.2)

/-- An evaluated control, one element of the `controls_output` list built
by `_evaluate_standards`. -/
structure ControlEval where
  id : String
  title : String
  description : String
  status : String
  notes : String
  deriving Repr, DecidableEq

/-- An evaluated standard, one value of the `evaluations` dictionary. -/
structure StandardEval where
  name : String
  version : String
  status : String
  controls : List ControlEval
  deriving Repr, DecidableEq

/-- `results['checks']` as an insertion-ordered association list;
`checks.get(key, {})` defaults to the empty dictionary. -/
def lookupCheck (checks : List (String × ServiceData)) (key : String) : ServiceData :=
  match checks.find? (fun p => p.1 == key) with
  | some p => p.2
  | none => {}

/-- Body of the inner loop of `_evaluate_standards` (source lines 876-885):
evaluate one control against the check data for its service. -/
def evalControl (checks : List (String × ServiceData)) (ctrl : Control) : ControlEval :=
  let service_data := lookupCheck checks ctrl.service
  let r := ctrl.evaluator.run service_data
  { id := ctrl.id,
    title := ctrl.title,
    description := ctrl.description,
    status := if r.1 then "pass" else "fail",
    notes := r.2 }

/-- Body of the outer loop of `_evaluate_standards` (source lines 875-892):
evaluate every control of one standard and derive the overall status. -/
def evalStandard (checks : List (String × ServiceData)) (d : StandardDef) : StandardEval :=
  let controls_output := d.controls.map (evalControl checks)
  { name := d.name,
    version := d.version,
    status := if controls_output.all (fun c => c.status == "pass") then "pass" else "fail",
    controls := controls_output }

/-- `_evaluate_standards` (source lines 868-893).  The Python function
receives the whole `results` dictionary and reads only `results['checks']`,
which is the `checks` parameter here; unknown keys in `selected` are
skipped (`continue`). -/
def _evaluate_standards (checks : List (String × ServiceData)) (selected : List String) :
    List (String × StandardEval) :=
  selected.filterMap (fun key =>
    match lookupStandard key with
    | none => none
    | some d => some (key, evalStandard checks d))

/-- Python truthiness of an optional-string argument such as
`output_file` / `pdf_output` (`None` and `''` are falsy). -/
def truthyOptStr : Option String → Bool
  | some s => !(s == "")
  | none => false

/-- The `results` dictionary assembled by `run_basic_audit`. -/
structure AuditResults where
  timestamp : String
  region : String
  profile : Option String
  checks : List (String × ServiceData)
  baseline_score : Int
  score_breakdown : List ScoreEntry
  overall_score : Int
  standards : List (String × StandardEval)
  selected_standards : List String
  deriving Repr, DecidableEq

/-- The observable outcome of one call to `run_basic_audit`: the returned
`results` dictionary, the contents of the JSON report when one is written
(`json.dump(results, f, ...)` runs only under `if output_file:`), and the
argument of the `_generate_pdf_report` call when one is made
(only under `if pdf_output:`). -/
structure AuditRun where
  results : AuditResults
  json_report : Option AuditResults
  pdf_call : Option (String × AuditResults)
  deriving Repr, DecidableEq

/-- `run_basic_audit` (source lines 600-662).  The three service checks
are effectful boto3 calls, so their results (`iam_results`, `s3_results`,
`ec2_results`) and the current time (`now_iso`, for
`datetime.utcnow().isoformat()`) are parameters. -/
def run_basic_audit (now_iso : String) (region : String) (profile : Option String)
    (iam_results s3_results ec2_results : ServiceData)
    (standards : Option (List String)) (output_file pdf_output : Option String) : AuditRun :=
  let checks := [("iam", iam_results), ("s3", s3_results), ("ec2", ec2_results)]
  let scores : List Int :=
    match iam_results.security_score with
    | some s => [s]
    | none => []
  let overall_score : Int :=
    if scores.isEmpty then 0 else Int.fdiv scores.sum scores.length
  let selected_standards : List String :=
    let sel := (standards.getD [])
    if sel.isEmpty then STANDARD_DEFINITIONS.map (fun p => p.1) else sel
  let results : AuditResults := {
    timestamp := now_iso ++ "Z",
    region := region,
    profile := profile,
    checks := checks,
    baseline_score := iam_results.baseline_score.getD 100,
    score_breakdown := iam_results.score_breakdown,
    overall_score := overall_score,
    standards := _evaluate_standards checks selected_standards,
    selected_standards := selected_standards }
  { results := results,
    json_report := if truthyOptStr output_file then some results else none,
    pdf_call := if truthyOptStr pdf_output then some (pdf_output.getD "", results) else none }

/-- What `_generate_pdf_report` does before building any document. -/
inductive PdfReportAction where
  | skipped_no_reportlab
  | attempted (path : String)
  deriving Repr, DecidableEq

/-- `_generate_pdf_report` (source lines 664-668): when ReportLab is not
installed the function returns immediately and builds nothing; otherwise
it proceeds to build the document at `pdf_path` (the document assembly
itself is formatting glue and is abstracted as `attempted`). -/
def _generate_pdf_report (reportlab_available : Bool) (pdf_path : String) : PdfReportAction :=
  if reportlab_available then .attempted pdf_path else .skipped_no_reportlab

/-- The `--pdf-output` argument as `main` resolves it (source line 960):
argparse supplies the default `'audit_report.pdf'` when the user does not
pass the flag. -/
def main_pdf_output_arg (cli_pdf_output : Option String) : String :=
  match cli_pdf_output with
  | some s => s
  | none => "audit_report.pdf"

/-- The `run_basic_audit` call made by `main` for `--audit` / `--all`
(source lines 995-999): `output_file := args.output`,
`pdf_output := args.pdf_output` (never `None`, thanks to the default),
`standards := args.standards`. -/
def main_audit_run (now_iso : String) (region : String) (profile : Option String)
    (iam_results s3_results ec2_results : ServiceData)
    (cli_output : Option String) (cli_pdf_output : Option String)
    (cli_standards : Option (List String)) : AuditRun :=
  run_basic_audit now_iso region profile iam_results s3_results ec2_results
    cli_standards cli_output (some (main_pdf_output_arg cli_pdf_output))

/-- Metadata of one IAM access key as seen by `basic_iam_check`.
`age_days` is `(datetime.utcnow() - CreateDate).days` when `CreateDate`
is a `datetime`, and `none` when it is not (such keys are skipped). -/
structure AccessKeyMeta where
  access_key_id : Option String := none
  age_days : Option Int := none
  deriving Repr, DecidableEq

/-- One IAM user together with the per-user API responses
(`list_mfa_devices`, `list_access_keys`) that `basic_iam_check` fetches.
boto3's `ListUsers` always includes `UserName`, so it is a plain string. -/
structure IAMUserData where
  user_name : String
  mfa_devices : List String := []
  access_keys : List AccessKeyMeta := []
  deriving Repr, DecidableEq

/-- The AWS responses consumed by one successful pass of
`basic_iam_check`'s `try` block.  `password_policy_configured := false`
models `get_account_password_policy` raising `ClientError`. -/
structure IAMEnv where
  account_id : Option String := none
  users : List IAMUserData := []
  password_policy_configured : Bool := true
  now_iso : String := ""
  deriving Repr, DecidableEq

/-- An entry of the `old_access_keys` list (source lines 436-440). -/
structure OldKeyEntry where
  user : String
  access_key_id : Option String
  age_days : Int
  deriving Repr, DecidableEq

/-- The `users_without_mfa` list: user names in user order whose
`list_mfa_devices` response is empty. -/
def users_without_mfa (env : IAMEnv) : List String :=
  (env.users.filter (fun u => u.mfa_devices.isEmpty)).map (fun u => u.user_name)

/-- The `old_access_keys` list: one entry per access key whose
`CreateDate` is a datetime and whose age exceeds 90 days, in
(user, key) iteration order. -/
def old_access_keys (env : IAMEnv) : List OldKeyEntry :=
  (env.users.map (fun u =>
    u.access_keys.filterMap (fun k =>
      match k.age_days with
      | some age =>
          if age > 90 then
            some { user := u.user_name, access_key_id := k.access_key_id, age_days := age }
          else none
      | none => none))).flatten

/-- `basic_iam_check` (source lines 401-516).  `aws_connected` is
`self.aws_connected`; `env` is `.ok e` when every boto3 call in the
`try` block succeeds with the responses recorded in `e`, and `.error msg`
when some call raises an exception whose `str` is `msg` (the outer
`except` then returns a fresh dictionary, so the position of the raise
does not matter). -/
def basic_iam_check (aws_connected : Bool) (env : Except String IAMEnv) : ServiceData :=
  if !aws_connected then
    { error := some "AWS not connected" }
  else
    match env with
    | .error e =>
        { error := some e,
          security_score := some 0,
          findings := [],
          score_breakdown := [],
          baseline_score := some 100 }
    | .ok env =>
        let uwm := users_without_mfa env
        let oak := old_access_keys env
        let mfa_deduction : Int := min 10 ((uwm.length : Int) * 2)
        let mfa_findings : List Finding :=
          if uwm.isEmpty then [] else
            [{ category := some "IAM",
               severity := some "medium",
               title := some "Users without MFA",
               count := some (uwm.length : Int),
               users := some (uwm.take 10) }]
        let mfa_breakdown : List ScoreEntry :=
          if uwm.isEmpty then [] else
            [{ control := "MFA coverage",
               deduction := mfa_deduction,
               details := toString uwm.length ++ " user(s) without MFA" }]
        let oak_deduction : Int := min 10 (oak.length : Int)
        let oak_findings : List Finding :=
          if oak.isEmpty then [] else
            [{ category := some "IAM",
               severity := some "medium",
               title := some "Old access keys (>90 days)",
               count := some (oak.length : Int) }]
        let oak_breakdown : List ScoreEntry :=
          if oak.isEmpty then [] else
            [{ control := "Old access keys",
               deduction := oak_deduction,
               details := toString oak.length ++ " access key(s) older than 90 days" }]
        let policy_findings : List Finding :=
          if env.password_policy_configured then
            [{ category := some "IAM",
               severity := some "info",
               title := some "Password policy",
               status := some "configured" }]
          else
            [{ category := some "IAM",
               severity := some "low",
               title := some "Password policy",
               status := some "not configured" }]
        let policy_breakdown : List ScoreEntry :=
          if env.password_policy_configured then [] else
            [{ control := "Password policy",
               deduction := 5,
               details := "No account password policy configured" }]
        let score : Int :=
          100 - (if uwm.isEmpty then 0 else mfa_deduction)
              - (if oak.isEmpty then 0 else oak_deduction)
              - (if env.password_policy_configured then 0 else 5)
        { account_id := env.account_id,
          security_score := some (max 0 (min 100 score)),
          findings := mfa_findings ++ oak_findings ++ policy_findings,
          timestamp := some (env.now_iso ++ "Z"),
          score_breakdown := mfa_breakdown ++ oak_breakdown ++ policy_breakdown,
          baseline_score := some 100 }

/-- The parts of the host filesystem that `_resolve_tool_path` consults:
`shutil.which`, `Path.exists`, and `Path.resolve` (paths are modelled as
strings, joined with `/`). -/
structure FS where
  which : String → Option String
  pathExists : String → Bool
  resolvePath : String → String

/-- First PATH hit over the alternatives (source lines 193-196). -/
def resolveFromPath (fs : FS) : List String → Option String
  | [] => none
  | alt :: rest =>
    match fs.which alt with
    | some path => some path
    | none => resolveFromPath fs rest

/-- The `tool_dir`-with-entry-points block (source lines 203-216) for one
tools directory and one alternative name. -/
def candidateInToolsDir (fs : FS) (tools_dir alt : String) : Option String :=
  let tool_dir := tools_dir ++ "/" ++ alt
  if fs.pathExists tool_dir then
    let candidates := [
      tool_dir ++ "/" ++ alt ++ ".py",
      tool_dir ++ "/cli.py",
      tool_dir ++ "/" ++ alt,
      tool_dir ++ "/pacu.py",
      tool_dir ++ "/scout.py"]
    (candidates.find? fs.pathExists).map fs.resolvePath
  else none

/-- Special handling for the scout-suite directory name
(source lines 218-224). -/
def scoutSpecialCase (fs : FS) (tools_dir alt : String) : Option String :=
  if alt == "scout" || alt == "scout-suite" then
    let scout_dir := tools_dir ++ "/scout-suite"
    if fs.pathExists scout_dir then
      let scout_py := scout_dir ++ "/scout.py"
      if fs.pathExists scout_py then some (fs.resolvePath scout_py) else none
    else none
  else none

/-- Special handling for the cloudmapper directory name
(source lines 226-232). -/
def cloudmapperSpecialCase (fs : FS) (tools_dir alt : String) : Option String :=
  if alt == "cloudmapper" then
    let cm_dir := tools_dir ++ "/cloudmapper"
    if fs.pathExists cm_dir then
      let cm_py := cm_dir ++ "/cloudmapper.py"
      if fs.pathExists cm_py then some (fs.resolvePath cm_py) else none
    else none
  else none

/-- One iteration of the inner `for alt in alternatives` loop: the three
blocks in source order, returning the first hit. -/
def searchToolsDirAlt (fs : FS) (tools_dir alt : String) : Option String :=
  match candidateInToolsDir fs tools_dir alt with
  | some p => some p
  | none =>
    match scoutSpecialCase fs tools_dir alt with
    | some p => some p
    | none => cloudmapperSpecialCase fs tools_dir alt

/-- Inner loop over alternatives for one tools directory. -/
def searchToolsDir (fs : FS) (tools_dir : String) : List String → Option String
  | [] => none
  | alt :: rest =>
    match searchToolsDirAlt fs tools_dir alt with
    | some p => some p
    | none => searchToolsDir fs tools_dir rest

/-- Outer loop over `tools_dirs = [Path('tools'), Path('../tools')]`. -/
def searchToolsDirs (fs : FS) (alts : List String) : List String → Option String
  | [] => none
  | d :: rest =>
    match searchToolsDir fs d alts with
    | some p => some p
    | none => searchToolsDirs fs alts rest

/-- `_resolve_tool_path` (source lines 188-234): PATH first, then the
local tools directories; `alternatives or [tool_name]` defaults a `None`
or empty list to `[tool_name]`. -/
def _resolve_tool_path (fs : FS) (tool_name : String)
    (alternatives : Option (List String)) : Option String :=
  let alts :=
    match alternatives with
    | none => [tool_name]
    | some l => if l.isEmpty then [tool_name] else l
  match resolveFromPath fs alts with
  | some path => some path
  | none => searchToolsDirs fs alts ["tools", "../tools"]

/-- The observable outcome of one `run_pacu` / `run_scout_suite` /
`run_aws_public_ips` call: the argv of the subprocess launched, if any,
and the method's boolean return value. -/
structure ToolRun where
  launched : Option (List String)
  returned : Bool
  deriving Repr, DecidableEq

/-- The default safe PACU modules (source lines 287-293). -/
def default_pacu_modules : List String :=
  ["iam__enum_users", "iam__enum_roles", "s3__enum_buckets", "s3__audit", "ec2__enum"]

/-- `run_pacu` (source lines 276-317).  `python_exe` is `sys.executable`;
`returncode` is the exit status of the launched subprocess (exceptions
around `subprocess.run` also yield `returned := false` and are subsumed
by a nonzero `returncode` for the claims at hand). -/
def run_pacu (fs : FS) (python_exe : String) (modules : Option (List String))
    (returncode : Int) : ToolRun :=
  match _resolve_tool_path fs "pacu" (some ["pacu", "pacu.py"]) with
  | none => { launched := none, returned := false }
  | some pacu_path =>
    let mods :=
      match modules with
      | none => default_pacu_modules
      | some l => if l.isEmpty then default_pacu_modules else l
    let modules_arg := String.intercalate "," mods
    let cmd :=
      if pacu_path.endsWith ".py" then [python_exe, pacu_path, "-m", modules_arg]
      else [pacu_path, "-m", modules_arg]
    { launched := some cmd, returned := returncode == 0 }

/-- `run_scout_suite` (source lines 319-358). -/
def run_scout_suite (fs : FS) (python_exe : String) (output_dir : Option String)
    (returncode : Int) : ToolRun :=
  match _resolve_tool_path fs "scout" (some ["scout", "scout-suite"]) with
  | none => { launched := none, returned := false }
  | some scout_path =>
    let odir := if truthyOptStr output_dir then output_dir.getD "" else "out/scout-suite"
    let cmd :=
      if scout_path.endsWith ".py" then
        [python_exe, scout_path, "--provider", "aws", "--report-dir", odir, "--no-browser"]
      else
        [scout_path, "--provider", "aws", "--report-dir", odir, "--no-browser"]
    { launched := some cmd, returned := returncode == 0 }

/-- `run_aws_public_ips` (source lines 360-399). -/
def run_aws_public_ips (fs : FS) (output_file : Option String)
    (returncode : Int) : ToolRun :=
  match _resolve_tool_path fs "aws-public-ips" (some ["aws-public-ips"]) with
  | none => { launched := none, returned := false }
  | some tool_path =>
    { launched := some [tool_path, "--format", "json"],
      returned := returncode == 0 }

/-! ## Theorems -/

/-- If `find?` returns an element, that element satisfies the predicate
and is the first such element of the list. -/
theorem find?_eq_some_first {α : Type} {p : α → Bool} {l : List α} {a : α}
    (h : l.find? p = some a) :
    p a = true ∧ ∃ pre post, l = pre ++ a :: post ∧ ∀ x ∈ pre, p x = false := by
  induction l with
  | nil => simp at h
  | cons b bs ih =>
    by_cases hb : p b
    · rw [List.find?_cons_of_pos _ hb] at h
      obtain rfl : b = a := by simpa using h
      exact ⟨hb, [], bs, rfl, by simp⟩
    · rw [List.find?_cons_of_neg _ (by simpa using hb)] at h
      obtain ⟨hpa, pre, post, heq, hpre⟩ := ih h
      refine ⟨hpa, b :: pre, post, by simp [heq], ?_⟩
      intro x hx
      rcases List.mem_cons.mp hx with rfl | hx
      · simpa using hb
      · exact hpre x hx

/-- C1: for any service-check dictionary with a truthy `error` entry each
of the three predicates returns `(False, message)`; without a truthy
`error`, `eval_mfa` is `False` iff a finding titled `Users without MFA`
has `count > 0`, `eval_old_keys` iff one titled
`Old access keys (>90 days)` has `count > 0`, and `eval_password_policy`
iff one titled `Password policy` has status `not configured`; otherwise
each returns `True`; and `_finding_by_title` matches by exact string
equality on the first finding carrying the title. -/
theorem c1_predicate_characterization (sd : ServiceData) :
    (sd.error_truthy = true →
      (eval_mfa sd).1 = false ∧ (eval_old_keys sd).1 = false ∧
      (eval_password_policy sd).1 = false) ∧
    (sd.error_truthy = false →
      (((eval_mfa sd).1 = false) ↔
        ∃ f, _finding_by_title sd "Users without MFA" = some f ∧ f.count.getD 0 > 0) ∧
      (((eval_old_keys sd).1 = false) ↔
        ∃ f, _finding_by_title sd "Old access keys (>90 days)" = some f ∧ f.count.getD 0 > 0) ∧
      (((eval_password_policy sd).1 = false) ↔
        ∃ f, _finding_by_title sd "Password policy" = some f ∧ f.status = some "not configured")) ∧
    (∀ t f, _finding_by_title sd t = some f →
      f.title = some t ∧ ∃ pre post, sd.findings = pre ++ f :: post ∧
        ∀ g ∈ pre, g.title ≠ some t) := by
  refine ⟨fun herr => ?_, fun herr => ⟨?_, ?_, ?_⟩, fun t f hf => ?_⟩
  · simp [eval_mfa, eval_old_keys, eval_password_policy, herr]
  · cases hfind : _finding_by_title sd "Users without MFA" with
    | none => simp [eval_mfa, herr, hfind]
    | some f =>
      by_cases hc : (f.count.getD 0) > 0
      · simp [eval_mfa, herr, hfind, hc]
      · simp [eval_mfa, herr, hfind, hc]
  · cases hfind : _finding_by_title sd "Old access keys (>90 days)" with
    | none => simp [eval_old_keys, herr, hfind]
    | some f =>
      by_cases hc : (f.count.getD 0) > 0
      · simp [eval_old_keys, herr, hfind, hc]
      · simp [eval_old_keys, herr, hfind, hc]
  · cases hfind : _finding_by_title sd "Password policy" with
    | none => simp [eval_password_policy, herr, hfind]
    | some f =>
      by_cases hc : f.status = some "not configured"
      · simp [eval_password_policy, herr, hfind, hc]
      · simp [eval_password_policy, herr, hfind, hc]
  · obtain ⟨hpf, pre, post, heq, hpre⟩ := find?_eq_some_first hf
    exact ⟨by simpa using hpf, pre, post, heq, fun g hg => by simpa using hpre g hg⟩

/-- C1 witness: on a dictionary whose `error` entry is the truthy string
`AWS not connected`, all three predicates return `False`. -/
theorem c1_predicate_characterization_witness :
    (eval_mfa { error := some "AWS not connected" }).1 = false ∧
    (eval_old_keys { error := some "AWS not connected" }).1 = false ∧
    (eval_password_policy { error := some "AWS not connected" }).1 = false :=
  (c1_predicate_characterization { error := some "AWS not connected" }).1 rfl

/-- C2: `STANDARD_DEFINITIONS` holds exactly the standards `cis`, `nist`
and `pcidss` with the stated display names, each standard has exactly
three controls, every control's service is `iam`, and each of the three
evaluators is used exactly once per standard. -/
theorem c2_standard_definitions_shape :
    STANDARD_DEFINITIONS.map (fun p => p.1) = ["cis", "nist", "pcidss"] ∧
    STANDARD_DEFINITIONS.map (fun p => p.2.name) =
      ["CIS AWS Foundations Benchmark", "NIST Cybersecurity Framework", "PCI DSS"] ∧
    STANDARD_DEFINITIONS.all (fun p =>
      p.2.controls.length == 3
      && p.2.controls.all (fun c => c.service == "iam")
      && ((p.2.controls.map (fun c => c.evaluator)).count Evaluator.mfa == 1)
      && ((p.2.controls.map (fun c => c.evaluator)).count Evaluator.old_keys == 1)
      && ((p.2.controls.map (fun c => c.evaluator)).count Evaluator.password_policy == 1)) =
      true :=
  ⟨rfl, rfl, rfl⟩

/-- C3: `run_basic_audit` stores the three direct-API check results under
exactly the keys `iam`, `s3`, `ec2` (in that order, and no others),
alongside the `timestamp`, `region`, `profile`, `baseline_score`,
`score_breakdown`, `standards` and `selected_standards` fields (with
`overall_score` present as well, characterized in C7), and the `results`
dictionary itself is what is serialized when an output file is
requested. -/
theorem c3_audit_aggregation (now_iso region : String) (profile : Option String)
    (iam s3 ec2 : ServiceData) (stds : Option (List String)) (out pdf : Option String) :
    (run_basic_audit now_iso region profile iam s3 ec2 stds out pdf).results.checks =
      [("iam", iam), ("s3", s3), ("ec2", ec2)] ∧
    (run_basic_audit now_iso region profile iam s3 ec2 stds out pdf).results.timestamp =
      now_iso ++ "Z" ∧
    (run_basic_audit now_iso region profile iam s3 ec2 stds out pdf).results.region = region ∧
    (run_basic_audit now_iso region profile iam s3 ec2 stds out pdf).results.profile = profile ∧
    (run_basic_audit now_iso region profile iam s3 ec2 stds out pdf).results.baseline_score =
      iam.baseline_score.getD 100 ∧
    (run_basic_audit now_iso region profile iam s3 ec2 stds out pdf).results.score_breakdown =
      iam.score_breakdown ∧
    (run_basic_audit now_iso region profile iam s3 ec2 stds out pdf).results.selected_standards =
      (if (stds.getD []).isEmpty then STANDARD_DEFINITIONS.map (fun p => p.1)
       else stds.getD []) ∧
    (run_basic_audit now_iso region profile iam s3 ec2 stds out pdf).results.standards =
      _evaluate_standards [("iam", iam), ("s3", s3), ("ec2", ec2)]
        (if (stds.getD []).isEmpty then STANDARD_DEFINITIONS.map (fun p => p.1)
         else stds.getD []) ∧
    (truthyOptStr out = true →
      (run_basic_audit now_iso region profile iam s3 ec2 stds out pdf).json_report =
        some (run_basic_audit now_iso region profile iam s3 ec2 stds out pdf).results) ∧
    (truthyOptStr out = false →
      (run_basic_audit now_iso region profile iam s3 ec2 stds out pdf).json_report = none) := by
  refine ⟨rfl, rfl, rfl, rfl, rfl, rfl, rfl, rfl, fun h => ?_, fun h => ?_⟩
  · simp [run_basic_audit, h]
  · simp [run_basic_audit, h]

/-- C3 witness: a concrete run with an output file requested serializes
exactly the results dictionary; its checks are the three check results. -/
theorem c3_audit_aggregation_witness :
    (run_basic_audit "t" "us-west-2" none {} {} {} none (some "out.json") none).results.checks =
      [("iam", {}), ("s3", {}), ("ec2", {})] ∧
    (run_basic_audit "t" "us-west-2" none {} {} {} none (some "out.json") none).json_report =
      some (run_basic_audit "t" "us-west-2" none {} {} {} none (some "out.json") none).results :=
  ⟨(c3_audit_aggregation "t" "us-west-2" none {} {} {} none (some "out.json") none).1,
   (c3_audit_aggregation "t" "us-west-2" none {} {} {} none
      (some "out.json") none).2.2.2.2.2.2.2.2.1 rfl⟩

/-- C4: each of `run_pacu`, `run_scout_suite` and `run_aws_public_ips`
returns `False` and launches no subprocess when `_resolve_tool_path`
finds no tool, and launches a subprocess only when a tool path was
resolved. -/
theorem c4_tools_only_if_installed (fs : FS) (python_exe : String)
    (modules : Option (List String)) (odir ofile : Option String) (rc1 rc2 rc3 : Int) :
    (_resolve_tool_path fs "pacu" (some ["pacu", "pacu.py"]) = none →
      run_pacu fs python_exe modules rc1 = { launched := none, returned := false }) ∧
    ((run_pacu fs python_exe modules rc1).launched ≠ none →
      _resolve_tool_path fs "pacu" (some ["pacu", "pacu.py"]) ≠ none) ∧
    (_resolve_tool_path fs "scout" (some ["scout", "scout-suite"]) = none →
      run_scout_suite fs python_exe odir rc2 = { launched := none, returned := false }) ∧
    ((run_scout_suite fs python_exe odir rc2).launched ≠ none →
      _resolve_tool_path fs "scout" (some ["scout", "scout-suite"]) ≠ none) ∧
    (_resolve_tool_path fs "aws-public-ips" (some ["aws-public-ips"]) = none →
      run_aws_public_ips fs ofile rc3 = { launched := none, returned := false }) ∧
    ((run_aws_public_ips fs ofile rc3).launched ≠ none →
      _resolve_tool_path fs "aws-public-ips" (some ["aws-public-ips"]) ≠ none) := by
  refine ⟨fun h => ?_, fun h hn => ?_, fun h => ?_, fun h hn => ?_, fun h => ?_, fun h hn => ?_⟩
  · simp [run_pacu, h]
  · simp [run_pacu, hn] at h
  · simp [run_scout_suite, h]
  · simp [run_scout_suite, hn] at h
  · simp [run_aws_public_ips, h]
  · simp [run_aws_public_ips, hn] at h

/-- A filesystem with an empty PATH and no local tools directory. -/
def fsEmpty : FS :=
  { which := fun _ => none, pathExists := fun _ => false, resolvePath := fun s => s }

/-- C4 witness: with no tool on PATH and no tools directory, all three
runners return `False` without launching a subprocess. -/
theorem c4_tools_only_if_installed_witness :
    run_pacu fsEmpty "python3" none 0 = { launched := none, returned := false } ∧
    run_scout_suite fsEmpty "python3" none 0 = { launched := none, returned := false } ∧
    run_aws_public_ips fsEmpty none 0 = { launched := none, returned := false } :=
  ⟨(c4_tools_only_if_installed fsEmpty "python3" none none none 0 0 0).1 rfl,
   (c4_tools_only_if_installed fsEmpty "python3" none none none 0 0 0).2.2.1 rfl,
   (c4_tools_only_if_installed fsEmpty "python3" none none none 0 0 0).2.2.2.2.1 rfl⟩

/-- C5 counterexample: in a CLI audit run where the user did not pass
`--pdf-output` (argument absent), `main` still hands `run_basic_audit`
the argparse default `audit_report.pdf`, so `_generate_pdf_report` is
invoked — a PDF is produced without the user asking for one. -/
theorem c5_counterexample_cli_default_pdf :
    ((main_audit_run "t" "us-west-2" none {} {} {} none none none).pdf_call).isSome = true :=
  rfl

/-- C5 amended: `run_basic_audit` calls `_generate_pdf_report` only when
its `pdf_output` argument is truthy, and `_generate_pdf_report` builds
nothing when ReportLab is not installed; however, a CLI audit run always
requests a PDF, because `--pdf-output` defaults to `audit_report.pdf` —
the call is skipped only when the resolved path is the empty string. -/
theorem c5_pdf_optional_amended (now_iso region : String) (profile : Option String)
    (iam s3 ec2 : ServiceData) (stds : Option (List String))
    (out pdf cli_out cli_pdf : Option String) (path : String) :
    ((run_basic_audit now_iso region profile iam s3 ec2 stds out pdf).pdf_call ≠ none →
      truthyOptStr pdf = true) ∧
    _generate_pdf_report false path = PdfReportAction.skipped_no_reportlab ∧
    main_pdf_output_arg none = "audit_report.pdf" ∧
    (main_audit_run now_iso region profile iam s3 ec2 cli_out cli_pdf stds).pdf_call =
      (if main_pdf_output_arg cli_pdf == "" then none
       else some (main_pdf_output_arg cli_pdf,
         (main_audit_run now_iso region profile iam s3 ec2 cli_out cli_pdf stds).results)) := by
  refine ⟨fun h => ?_, rfl, rfl, ?_⟩
  · by_cases hp : truthyOptStr pdf
    · exact hp
    · exact absurd (by simp [run_basic_audit, hp]) h
  · by_cases hp : main_pdf_output_arg cli_pdf == ""
    · simp [main_audit_run, run_basic_audit, truthyOptStr, hp]
    · simp [main_audit_run, run_basic_audit, truthyOptStr, hp]

/-- C5 amended witness: with `pdf_output := some "r.pdf"` the PDF branch
is taken and the hypothesis of the first arm is discharged concretely. -/
theorem c5_pdf_optional_amended_witness :
    truthyOptStr (some "r.pdf") = true :=
  (c5_pdf_optional_amended "t" "us-west-2" none {} {} {} none none (some "r.pdf")
    none none "p.pdf").1 (by simp [run_basic_audit, truthyOptStr])

/-- Every control of every standard in `STANDARD_DEFINITIONS` targets the
`iam` service. -/
theorem standard_controls_all_iam :
    STANDARD_DEFINITIONS.all (fun p => p.2.controls.all (fun c => c.service == "iam")) = true :=
  rfl

/-- Evaluating a control whose service is `iam` depends only on the
`iam` entry of the checks dictionary. -/
theorem evalControl_eq_of_iam (checks1 checks2 : List (String × ServiceData)) (ctrl : Control)
    (hs : ctrl.service = "iam")
    (h : lookupCheck checks1 "iam" = lookupCheck checks2 "iam") :
    evalControl checks1 ctrl = evalControl checks2 ctrl := by
  simp only [evalControl, hs, h]

/-- Evaluating a standard all of whose controls target `iam` depends only
on the `iam` entry of the checks dictionary. -/
theorem evalStandard_eq_of_iam (checks1 checks2 : List (String × ServiceData)) (d : StandardDef)
    (hall : d.controls.all (fun c => c.service == "iam") = true)
    (h : lookupCheck checks1 "iam" = lookupCheck checks2 "iam") :
    evalStandard checks1 d = evalStandard checks2 d := by
  have hmap : d.controls.map (evalControl checks1) = d.controls.map (evalControl checks2) :=
    List.map_congr_left (fun ctrl hm =>
      evalControl_eq_of_iam checks1 checks2 ctrl
        (by simpa using List.all_eq_true.mp hall ctrl hm) h)
  simp only [evalStandard, hmap]

/-- C6: compliance evaluation reads only the IAM check data — two checks
dictionaries with equal `iam` entries yield identical standards output
from `_evaluate_standards` for the same selection, whatever the S3 and
EC2 data are. -/
theorem c6_standards_depend_only_on_iam (checks1 checks2 : List (String × ServiceData))
    (selected : List String)
    (h : lookupCheck checks1 "iam" = lookupCheck checks2 "iam") :
    _evaluate_standards checks1 selected = _evaluate_standards checks2 selected := by
  unfold _evaluate_standards
  induction selected with
  | nil => rfl
  | cons k ks ih =>
    simp only [List.filterMap_cons]
    cases hfind : lookupStandard k with
    | none => simpa [hfind] using ih
    | some d =>
      have hall : d.controls.all (fun c => c.service == "iam") = true := by
        unfold lookupStandard at hfind
        cases hf : STANDARD_DEFINITIONS.find? (fun p => p.1 == k) with
        | none => simp [hf] at hfind
        | some p =>
          have hp := List.mem_of_find?_eq_some hf
          have hd : p.2 = d := by simpa [hf] using hfind
          simpa [hd] using List.all_eq_true.mp standard_controls_all_iam p hp
      simp [hfind, evalStandard_eq_of_iam checks1 checks2 d hall h, ih]

/-- C6 witness: two concrete checks dictionaries that agree on `iam` but
differ wildly on `s3` and `ec2` produce identical standards output. -/
theorem c6_standards_depend_only_on_iam_witness :
    _evaluate_standards
      [("iam", {}), ("s3", { error := some "boom" }), ("ec2", {})]
      ["cis", "nist", "pcidss"] =
    _evaluate_standards
      [("iam", {}), ("s3", {}),
       ("ec2", { findings := [{ issue := some "Port 22 open to 0.0.0.0/0" }] })]
      ["cis", "nist", "pcidss"] :=
  c6_standards_depend_only_on_iam _ _ ["cis", "nist", "pcidss"] rfl

/-- C7: the overall score equals the IAM `security_score` when
`basic_iam_check` returned one, is `0` otherwise, and is unchanged by
arbitrary replacement of the S3 and EC2 check results. -/
theorem c7_overall_score_is_iam_score (now_iso region : String) (profile : Option String)
    (conn : Bool) (env : Except String IAMEnv)
    (s3 ec2 s3' ec2' : ServiceData) (stds : Option (List String)) (out pdf : Option String) :
    (run_basic_audit now_iso region profile (basic_iam_check conn env)
        s3 ec2 stds out pdf).results.overall_score =
      (match (basic_iam_check conn env).security_score with
       | some s => s
       | none => 0) ∧
    (run_basic_audit now_iso region profile (basic_iam_check conn env)
        s3 ec2 stds out pdf).results.overall_score =
      (run_basic_audit now_iso region profile (basic_iam_check conn env)
        s3' ec2' stds out pdf).results.overall_score := by
  constructor
  · cases hs : (basic_iam_check conn env).security_score with
    | none => simp [run_basic_audit, hs]
    | some s => simp [run_basic_audit, hs, Int.fdiv_one]
  · rfl

/-- C8 counterexample: when AWS is not connected, `basic_iam_check`
returns `{'error': 'AWS not connected'}` with no `security_score` key at
all, so not every returned dictionary has a `security_score`. -/
theorem c8_counterexample_no_score_key :
    (basic_iam_check false (.ok {})).security_score = none ∧
    (basic_iam_check false (.ok {})).error = some "AWS not connected" :=
  ⟨rfl, rfl⟩

/-- C8 amended: the not-connected early return carries no
`security_score` key; every `security_score` that `basic_iam_check` does
return is between 0 and 100 inclusive, the exception path returns 0, and
on the successful path the deductions are capped at 10 (MFA), 10 (old
keys) and 5 (password policy), so the score there is at least 75. -/
theorem c8_amended_score_bounds (conn : Bool) (env : Except String IAMEnv) :
    (conn = false →
      basic_iam_check conn env = { error := some "AWS not connected" }) ∧
    (∀ s, (basic_iam_check conn env).security_score = some s → 0 ≤ s ∧ s ≤ 100) ∧
    (∀ msg, conn = true → env = .error msg →
      (basic_iam_check conn env).security_score = some 0) ∧
    (∀ e, conn = true → env = .ok e →
      (basic_iam_check conn env).security_score.isSome = true ∧
      75 ≤ (basic_iam_check conn env).security_score.getD 0) := by
  refine ⟨fun hc => by simp [basic_iam_check, hc],
          fun s hs => ?_, fun msg hc henv => by simp [basic_iam_check, hc, henv],
          fun e hc henv => ?_⟩
  · cases conn with
    | false => simp [basic_iam_check] at hs
    | true =>
      cases env with
      | error msg =>
        simp [basic_iam_check] at hs
        omega
      | ok e =>
        simp [basic_iam_check] at hs
        split_ifs at hs <;> omega
  · subst hc; subst henv
    simp [basic_iam_check]
    split_ifs <;> omega

/-- C8 amended witness: concrete runs hitting the not-connected path, the
exception path, and a successful empty-account path. -/
theorem c8_amended_score_bounds_witness :
    basic_iam_check false (.ok {}) = { error := some "AWS not connected" } ∧
    (basic_iam_check true (.error "throttled")).security_score = some 0 ∧
    ((basic_iam_check true (.ok {})).security_score.isSome = true ∧
      75 ≤ (basic_iam_check true (.ok {})).security_score.getD 0) ∧
    (0 ≤ (100 : Int) ∧ (100 : Int) ≤ 100) :=
  ⟨(c8_amended_score_bounds false (.ok {})).1 rfl,
   (c8_amended_score_bounds true (.error "throttled")).2.2.1 "throttled" rfl rfl,
   (c8_amended_score_bounds true (.ok {})).2.2.2 {} rfl rfl,
   (c8_amended_score_bounds true (.ok {})).2.1 100 rfl⟩

/-- C9: the `Users without MFA` finding is emitted exactly when at least
one user lacks an MFA device; its `count` is the total number of such
users while its `users` list is truncated to the first 10 of their
names. -/
theorem c9_mfa_finding_count_and_truncation (env : IAMEnv) :
    ((users_without_mfa env).length = 0 →
      _finding_by_title (basic_iam_check true (.ok env)) "Users without MFA" = none) ∧
    (0 < (users_without_mfa env).length →
      _finding_by_title (basic_iam_check true (.ok env)) "Users without MFA" =
        some { category := some "IAM",
               severity := some "medium",
               title := some "Users without MFA",
               count := some ((users_without_mfa env).length : Int),
               users := some ((users_without_mfa env).take 10) }) := by
  constructor
  · intro h0
    have hempty : (users_without_mfa env).isEmpty = true := by
      simpa [List.isEmpty_iff_length_eq_zero] using h0
    by_cases hoak : (old_access_keys env).isEmpty <;>
      by_cases hpol : env.password_policy_configured <;>
        simp [basic_iam_check, _finding_by_title, hempty, hoak, hpol]
  · intro hpos
    have hne : (users_without_mfa env).isEmpty = false := by
      cases hh : (users_without_mfa env).isEmpty with
      | false => rfl
      | true =>
        rw [List.isEmpty_iff_length_eq_zero] at hh
        omega
    simp [basic_iam_check, _finding_by_title, hne]

/-- C9 witness: with one user lacking MFA, the finding is emitted with
count 1 and the single user name listed. -/
theorem c9_mfa_finding_count_and_truncation_witness :
    _finding_by_title
      (basic_iam_check true (.ok { users := [{ user_name := "alice" }] }))
      "Users without MFA" =
      some { category := some "IAM",
             severity := some "medium",
             title := some "Users without MFA",
             count := some ((users_without_mfa { users := [{ user_name := "alice" }] }).length : Int),
             users := some ((users_without_mfa { users := [{ user_name := "alice" }] }).take 10) } :=
  (c9_mfa_finding_count_and_truncation { users := [{ user_name := "alice" }] }).2 (by decide)

end PawsStreamlined
